import Mathlib

/-!
Verification of the JurisClarify legal-document analysis backend
(`backend/app/main.py`).

The analysis core of the backend is a pipeline of pure text functions
(`is_legal_document`, `detect_risks_rule_based`, `extract_legal_terms`,
`analyze_rule_based`) together with a remote-AI analyzer
(`analyze_with_groq`), a fallback orchestrator (`analyze_with_ai`) and the
`/simplify` HTTP handler (`simplify_legal_text`).  Each of those is embedded
below as an executable Lean function over `String` (modelled as its list of
characters).

Python string operations used by the code are embedded first:
`keyword in text` (substring containment), `str.lower` (ASCII case folding),
`str.strip` (whitespace trimming) and `str.split(sep)`.  Network I/O is
abstracted at the call boundary: the HTTP status and body of the remote
response are arguments, and a Python exception is `Except.error`.
-/

set_option maxRecDepth 8192

/-- `prefixB n h` : the character list `n` is a prefix of `h`. -/
def prefixB : List Char → List Char → Bool
  | [], _ => true
  | _ :: _, [] => false
  | n :: ns, h :: hs => n == h && prefixB ns hs

/-- Python substring containment `needle in hay`, on character lists. -/
def containsL (needle : List Char) : List Char → Bool
  | [] => needle.isEmpty
  | c :: rest => prefixB needle (c :: rest) || containsL needle rest

/-- Python `needle in hay` on strings. -/
def containsSubstr (needle hay : String) : Bool :=
  containsL needle.data hay.data

/-- Python `str.lower` (the code only lowers ASCII letters). -/
def lowerS (s : String) : String :=
  String.mk (s.data.map Char.toLower)

/-- Python `str.strip` on character lists: drop leading and trailing whitespace. -/
def stripChars (s : List Char) : List Char :=
  ((s.dropWhile Char.isWhitespace).reverse.dropWhile Char.isWhitespace).reverse

/-- Python `str.strip` on strings. -/
def stripS (s : String) : String :=
  String.mk (stripChars s.data)

/-- Worker for Python `str.split(sep)` with a non-empty separator.  The first
`Nat` argument is recursion fuel, always instantiated with the length of the
scanned list (the scan consumes at least one character per step, so the fuel
is never exhausted). -/
def splitGo (sep : List Char) : Nat → List Char → List Char → List (List Char)
  | _, [], acc => [acc.reverse]
  | 0, s, acc => [acc.reverse ++ s]
  | fuel + 1, c :: rest, acc =>
    if prefixB sep (c :: rest) then
      acc.reverse :: splitGo sep fuel (rest.drop (sep.length - 1)) []
    else
      splitGo sep fuel rest (c :: acc)

/-- Python `s.split(sep)` for a non-empty separator `sep`. -/
def splitOnS (sep s : String) : List String :=
  (splitGo sep.data s.data.length s.data []).map String.mk

/-! ### Catalogs (src/backend/app/main.py, static data) -/

/-- The fixed legal-vocabulary list of `is_legal_document` (lines 76-82). -/
def legal_keywords : List String :=
  ["agreement", "contract", "party", "parties", "terms", "conditions",
   "liability", "breach", "terminate", "clause", "legal", "binding",
   "jurisdiction", "arbitration", "indemnify", "warranty", "confidential",
   "herein", "thereof", "whereby", "whereas", "pursuant", "notwithstanding",
   "obligations", "rights", "responsibilities", "covenant", "undertake"]

/-- The risk catalog of `detect_risks_rule_based` (lines 171-180), in
insertion order of the Python dict. -/
def risk_patterns : List (String × String) :=
  [("termination", "⚠️ **Cancellation Terms**: Document includes termination clauses. Check notice period and exit fees carefully."),
   ("liability", "⚠️ **Financial Risk**: Contains liability provisions that may hold you responsible for damages or losses."),
   ("penalty", "⚠️ **Penalties**: Financial penalties are specified for non-compliance or late payments."),
   ("binding", "⚠️ **Legally Binding**: This is a binding contract. Breaking it could lead to legal consequences."),
   ("indemnify", "⚠️ **Indemnification**: You may have to compensate the other party for certain losses."),
   ("arbitration", "⚠️ **Arbitration Clause**: Disputes will be resolved through arbitration, not regular courts."),
   ("confidentiality", "⚠️ **Confidentiality**: Contains non-disclosure requirements that restrict information sharing."),
   ("payment", "⚠️ **Payment Obligations**: Specific payment terms and deadlines are outlined.")]

/-- The fixed default risk list of `detect_risks_rule_based` (lines 187-191). -/
def default_risks : List String :=
  ["⚠️ Always verify the other party\x27s identity and credentials before signing.",
   "⚠️ Understand all payment terms, due dates, and late payment consequences.",
   "⚠️ Check for automatic renewal clauses or cancellation procedures."]

/-- The glossary catalog of `extract_legal_terms` (lines 199-210), in
insertion order of the Python dict. -/
def all_terms : List (String × String) :=
  [("Indemnify", "A promise to compensate the other party for losses. Can be expensive."),
   ("Liability", "Being responsible if something goes wrong. You might have to pay damages."),
   ("Breach", "Breaking the contract rules. Can lead to penalties or lawsuits."),
   ("Termination", "Ending the contract. Check how and when you can do this."),
   ("Consideration", "What each side gives (money, work, goods) to make the contract valid."),
   ("Force Majeure", "Unexpected events (disasters, wars) that excuse non-performance."),
   ("Arbitration", "Solving disputes outside court with a neutral person. Usually final."),
   ("Confidential", "Private information you can\x27t share. Breaking this can get you sued."),
   ("Warranty", "A promise that something will work as expected. Get fixes or refunds if not."),
   ("Jurisdiction", "Which state or country\x27s laws apply and where cases will be heard.")]

/-! ### The analysis functions (src/backend/app/main.py) -/

/-- `is_legal_document` (lines 74-88): count how many keywords of
`legal_keywords` occur in the lower-cased text; accept iff at least 3. -/
def is_legal_document (text : String) : Bool :=
  let text_lower := lowerS text
  let matchCount := legal_keywords.foldl
    (fun n keyword => if containsSubstr keyword text_lower then n + 1 else n) 0
  decide (3 ≤ matchCount)

/-- `detect_risks_rule_based` (lines 166-193): walk the risk catalog in order,
appending a category message while fewer than 3 were collected; substitute the
fixed default list when nothing matched; return at most 3. -/
def detect_risks_rule_based (text : String) : List String :=
  let text_lower := lowerS text
  let risks := risk_patterns.foldl
    (fun risks p =>
      if containsSubstr p.1 text_lower ∧ risks.length < 3 then risks ++ [p.2] else risks)
    []
  let risks := if risks = [] then default_risks else risks
  risks.take 3

/-- `extract_legal_terms` (lines 195-222): collect the glossary entries whose
term occurs in the lower-cased text, pad from the first 5 catalog entries
(skipping entries already present) when fewer than 5 matched, cap at 5. -/
def extract_legal_terms (text : String) : List (String × String) :=
  let text_lower := lowerS text
  let found_terms := all_terms.filter (fun t => containsSubstr (lowerS t.1) text_lower)
  let found_terms :=
    if found_terms.length < 5 then
      (all_terms.take 5).foldl (fun acc t => if t ∈ acc then acc else acc ++ [t]) found_terms
    else found_terms
  found_terms.take 5

/-- The document-type inference inlined in `analyze_rule_based`
(lines 226-232): an if/elif chain over the lower-cased text. -/
def rule_based_doc_type (text : String) : String :=
  if containsSubstr "lease" (lowerS text) || containsSubstr "rent" (lowerS text) then
    "lease agreement"
  else if containsSubstr "employment" (lowerS text) then
    "employment contract"
  else if containsSubstr "service" (lowerS text) then
    "service agreement"
  else
    "legal document"

/-- `analyze_rule_based` (lines 224-240): the deterministic fallback analyzer. -/
def analyze_rule_based (text : String) : String × List String × List (String × String) :=
  let doc_type := rule_based_doc_type text
  let summary :=
    "This " ++ doc_type ++ " sets out the rules and responsibilities for both parties. " ++
    "Before signing, make sure you understand when you can cancel, what happens if something goes wrong, and how disagreements will be resolved."
  (summary, detect_risks_rule_based text, extract_legal_terms text)

/-- The summary parsed by `analyze_with_groq` from the remote response body
(lines 146-151). -/
def groq_summary (response_text : String) : String :=
  if containsSubstr "SUMMARY:" response_text then
    stripS ((splitOnS "RISKS:" ((splitOnS "SUMMARY:" response_text).getD 1 "")).getD 0 "")
  else ""

/-- The risk lines parsed by `analyze_with_groq` from the remote response body
(lines 153-156): split the section after `RISKS:` on newlines, keep the
stripped non-empty lines containing the warning glyph, cap at 3. -/
def groq_risks (response_text : String) : List String :=
  if containsSubstr "RISKS:" response_text then
    let risks_section := stripS ((splitOnS "RISKS:" response_text).getD 1 "")
    let risk_lines :=
      ((splitOnS "\n" risks_section).filter
        (fun line => !(stripS line).data.isEmpty && containsSubstr "⚠️" line)).map stripS
    risk_lines.take 3
  else []

/-- `analyze_with_groq` (lines 91-164), response handling.  The HTTP transport
is abstracted: `status` and `response_text` are the status code and parsed
message content of the remote reply, and a raised exception is
`Except.error`.  A non-200 status raises; otherwise the response is parsed and
the two validation gates (summary present and at least 30 characters, at
least 3 risk lines) raise on violation. -/
def analyze_with_groq (status : Nat) (response_text : String) :
    Except String (String × List String) :=
  if status ≠ 200 then Except.error ("Groq API failed: " ++ toString status)
  else
    let summary := groq_summary response_text
    let risks := groq_risks response_text
    if summary = "" ∨ summary.length < 30 then Except.error "Groq response too short"
    else if risks.length < 3 then Except.error "Not enough risks from Groq"
    else Except.ok (summary, risks)

/-- `analyze_with_ai` (lines 242-257): try the remote analyzer, and on any
exception fall back to `analyze_rule_based`.  The remote call (including its
transport) is abstracted as the function argument `groq`, whose `Except.error`
case is a raised exception. -/
def analyze_with_ai (groq : String → Except String (String × List String))
    (text : String) : String × List String × List (String × String) :=
  match groq text with
  | Except.ok (summary, risks) => (summary, risks, extract_legal_terms text)
  | Except.error _ => analyze_rule_based text

/-- The JSON body of a `/simplify` response: either an object with an
`error` key, or the success object `{summary, redFlags, glossary}`. -/
inductive SimplifyBody where
  | err : String → SimplifyBody
  | ok : String → List String → List (String × String) → SimplifyBody
  deriving DecidableEq

/-- `simplify_legal_text`, the `POST /simplify` handler (lines 259-293).
The result is the pair (HTTP status, JSON body).  The analysis step (which in
the source is `analyze_with_ai` and may in principle raise) is abstracted as
the fallible function argument `analysis`; a raised exception inside the
handler body is its `Except.error` case, caught by the handler and turned
into a 500 error response. -/
def simplify_legal_text
    (analysis : String → Except String (String × List String × List (String × String)))
    (raw : String) : Nat × SimplifyBody :=
  let text := stripS raw
  if text = "" ∨ text.length < 20 then
    (400, SimplifyBody.err "Text is too short. Please provide a valid document.")
  else if !is_legal_document text then
    (400, SimplifyBody.err "This doesn\x27t appear to be a legal document. Please upload contracts, agreements, or legal letters only.")
  else
    match analysis text with
    | Except.ok (summary, risks, glossary) => (200, SimplifyBody.ok summary risks glossary)
    | Except.error e => (500, SimplifyBody.err ("Analysis failed: " ++ e))

/-! ### Specification-side characterizations -/

/-- The messages of the risk categories whose keyword occurs in the
lower-cased text, in catalog order. -/
def matched_risk_messages (text : String) : List String :=
  (risk_patterns.filter (fun p => containsSubstr p.1 (lowerS text))).map Prod.snd

/-- The number of risk categories whose keyword occurs in the text. -/
def matched_risk_count (text : String) : Nat :=
  risk_patterns.countP (fun p => containsSubstr p.1 (lowerS text))

/-- The glossary entries whose term occurs in the lower-cased text, in
catalog order. -/
def matched_terms (text : String) : List (String × String) :=
  all_terms.filter (fun t => containsSubstr (lowerS t.1) (lowerS text))

/-- The number of legal keywords occurring in the lower-cased text. -/
def matched_keyword_count (text : String) : Nat :=
  legal_keywords.countP (fun k => containsSubstr k (lowerS text))

/-! ### Helper lemmas -/

lemma foldl_count_eq_countP (p : String → Bool) (l : List String) (n : Nat) :
    l.foldl (fun acc k => if p k then acc + 1 else acc) n = n + l.countP p := by
  induction l generalizing n with
  | nil => simp
  | cons a l ih =>
    simp only [List.foldl_cons, List.countP_cons, ih]
    by_cases h : p a
    · simp [h]; omega
    · simp [h]

lemma is_legal_document_eq (text : String) :
    is_legal_document text = decide (3 ≤ matched_keyword_count text) := by
  unfold is_legal_document matched_keyword_count
  simp only [foldl_count_eq_countP, Nat.zero_add]

lemma groq_risks_length_le (rt : String) : (groq_risks rt).length ≤ 3 := by
  unfold groq_risks
  split
  · exact List.length_take_le _ _
  · simp

lemma risk_foldl_eq (lo : String) (ps : List (String × String)) (acc : List String)
    (hacc : acc.length ≤ 3) :
    ps.foldl
      (fun risks p =>
        if containsSubstr p.1 lo ∧ risks.length < 3 then risks ++ [p.2] else risks)
      acc
      = (acc ++ (ps.filter (fun p => containsSubstr p.1 lo)).map Prod.snd).take 3 := by
  induction ps generalizing acc with
  | nil => simp [List.take_of_length_le hacc]
  | cons p ps ih =>
    simp only [List.foldl_cons, List.filter_cons]
    by_cases hc : containsSubstr p.1 lo = true
    · by_cases hlen : acc.length < 3
      · rw [if_pos ⟨hc, hlen⟩, ih (acc ++ [p.2]) (by simp; omega)]
        simp [hc]
      · rw [if_neg (fun hh => hlen hh.2), ih acc hacc]
        have h3 : acc.length = 3 := by omega
        simp only [hc, if_true]
        rw [List.take_append_eq_append_take, List.take_append_eq_append_take, h3]
        simp [List.take_of_length_le (Nat.le_of_eq h3)]
    · rw [if_neg (fun hh => hc hh.1)]
      simp only [hc, if_false]
      exact ih acc hacc

lemma detect_risks_eq (text : String) :
    detect_risks_rule_based text =
      if matched_risk_messages text = [] then default_risks
      else (matched_risk_messages text).take 3 := by
  unfold detect_risks_rule_based matched_risk_messages
  simp only [risk_foldl_eq (lowerS text) risk_patterns [] (by simp), List.nil_append]
  by_cases h :
      ((risk_patterns.filter (fun p => containsSubstr p.1 (lowerS text))).map Prod.snd) = []
  · simp [h]
    decide
  · have hne : ¬ (((risk_patterns.filter
        (fun p => containsSubstr p.1 (lowerS text))).map Prod.snd).take 3 = []) := by
      rw [List.take_eq_nil_iff]
      simp [h]
    simp [h, hne, List.take_take]

lemma pad_foldl_eq (l : List (String × String)) (hl : l.Nodup) :
    ∀ acc : List (String × String),
      l.foldl (fun acc t => if t ∈ acc then acc else acc ++ [t]) acc
        = acc ++ l.filter (fun t => decide (t ∉ acc)) := by
  induction l with
  | nil => intro acc; simp
  | cons a l ih =>
    intro acc
    have hn : a ∉ l := (List.nodup_cons.mp hl).1
    have hl' : l.Nodup := (List.nodup_cons.mp hl).2
    simp only [List.foldl_cons, List.filter_cons]
    by_cases ha : a ∈ acc
    · rw [if_pos ha, ih hl' acc]
      simp [ha]
    · rw [if_neg ha, ih hl' (acc ++ [a])]
      have hfc : l.filter (fun t => decide (t ∉ acc ++ [a]))
          = l.filter (fun t => decide (t ∉ acc)) := by
        apply List.filter_congr
        intro x hx
        have hxa : x ≠ a := fun hxa => hn (hxa ▸ hx)
        simp [List.mem_append, hxa]
      rw [hfc]
      simp [ha]

lemma extract_legal_terms_eq (text : String) :
    extract_legal_terms text =
      (matched_terms text ++
        (all_terms.take 5).filter (fun t => decide (t ∉ matched_terms text))).take 5 := by
  unfold extract_legal_terms matched_terms
  by_cases h :
      (all_terms.filter (fun t => containsSubstr (lowerS t.1) (lowerS text))).length < 5
  · simp only [h, if_true]
    rw [pad_foldl_eq (all_terms.take 5) (by decide)]
  · simp only [h, if_false]
    rw [List.take_append_eq_append_take]
    have h0 : 5 - (all_terms.filter
        (fun t => containsSubstr (lowerS t.1) (lowerS text))).length = 0 := by omega
    simp [h0]

/-! ### Claim theorems -/

/-- Claim C1: if the remote analyzer raises any exception, `analyze_with_ai`
does not propagate it but returns exactly the result of
`analyze_rule_based text`: the same summary, the same rule-based risk list
and the same glossary as a direct call to the rule-based path. -/
theorem analyze_with_ai_falls_back
    (groq : String → Except String (String × List String)) (text : String)
    (h : ∃ e, groq text = Except.error e) :
    analyze_with_ai groq text = analyze_rule_based text ∧
    (analyze_with_ai groq text).1 = (analyze_rule_based text).1 ∧
    (analyze_with_ai groq text).2.1 = detect_risks_rule_based text ∧
    (analyze_with_ai groq text).2.2 = extract_legal_terms text := by
  obtain ⟨e, he⟩ := h
  have h1 : analyze_with_ai groq text = analyze_rule_based text := by
    unfold analyze_with_ai
    rw [he]
  exact ⟨h1, by rw [h1], by rw [h1]; rfl, by rw [h1]; rfl⟩

/-- Witness for C1: a remote analyzer that always raises, on a concrete
lease text. -/
theorem analyze_with_ai_falls_back_witness :
    analyze_with_ai (fun _ => Except.error "network down") "monthly rent is due"
      = analyze_rule_based "monthly rent is due" ∧
    (analyze_with_ai (fun _ => Except.error "network down") "monthly rent is due").1
      = (analyze_rule_based "monthly rent is due").1 ∧
    (analyze_with_ai (fun _ => Except.error "network down") "monthly rent is due").2.1
      = detect_risks_rule_based "monthly rent is due" ∧
    (analyze_with_ai (fun _ => Except.error "network down") "monthly rent is due").2.2
      = extract_legal_terms "monthly rent is due" :=
  analyze_with_ai_falls_back (fun _ => Except.error "network down")
    "monthly rent is due" ⟨"network down", rfl⟩

/-- Claim C2: `is_legal_document text` is true iff at least 3 of the listed
legal keywords occur (case-insensitively) in `text`; in particular it is
false whenever at most 2 of them occur. -/
theorem is_legal_document_iff_keyword_count (text : String) :
    (is_legal_document text = true ↔ 3 ≤ matched_keyword_count text) ∧
    (matched_keyword_count text ≤ 2 → is_legal_document text = false) := by
  constructor
  · rw [is_legal_document_eq]
    simp
  · intro hle
    rw [is_legal_document_eq]
    simp
    omega

/-- Witness for C2: a text containing no legal keyword is rejected. -/
theorem is_legal_document_iff_keyword_count_witness :
    is_legal_document "hello there" = false :=
  (is_legal_document_iff_keyword_count "hello there").2 (by decide)

/-- Claim C3: `analyze_with_groq` returns a (summary, risks) pair only when
the parsed summary is non-empty with at least 30 characters and the parsed
risk list has exactly 3 entries; otherwise it raises. -/
theorem analyze_with_groq_ok_gates (status : Nat) (rt : String)
    (s : String) (rs : List String)
    (h : analyze_with_groq status rt = Except.ok (s, rs)) :
    s ≠ "" ∧ 30 ≤ s.length ∧ rs.length = 3 := by
  simp only [analyze_with_groq] at h
  split at h
  · exact absurd h (by simp)
  · split at h
    · exact absurd h (by simp)
    · split at h
      · exact absurd h (by simp)
      · rename_i hstatus hsum hrisk
        rw [Except.ok.injEq, Prod.mk.injEq] at h
        obtain ⟨hs, hr⟩ := h
        push_neg at hsum
        subst hs
        subst hr
        refine ⟨hsum.1, hsum.2, ?_⟩
        have hle := groq_risks_length_le rt
        omega

/-- Witness for C3: a well-formed remote response passes the gates. -/
theorem analyze_with_groq_ok_gates_witness :
    "This rental contract requires monthly payment." ≠ "" ∧
    30 ≤ String.length "This rental contract requires monthly payment." ∧
    List.length (["⚠️ a", "⚠️ b", "⚠️ c"] : List String) = 3 :=
  analyze_with_groq_ok_gates 200
    "SUMMARY: This rental contract requires monthly payment. RISKS:\n⚠️ a\n⚠️ b\n⚠️ c"
    "This rental contract requires monthly payment." ["⚠️ a", "⚠️ b", "⚠️ c"] rfl

/-- Claim C7: if no risk-catalog keyword occurs in the text, the rule-based
risk list is exactly the fixed 3-item default list. -/
theorem no_keyword_default_risks (text : String)
    (h : ∀ p ∈ risk_patterns, containsSubstr p.1 (lowerS text) = false) :
    detect_risks_rule_based text = default_risks := by
  have hm : matched_risk_messages text = [] := by
    unfold matched_risk_messages
    rw [List.filter_eq_nil_iff.mpr (fun p hp => by simp [h p hp])]
    rfl
  rw [detect_risks_eq, if_pos hm]

/-- Witness for C7: an everyday text with no catalog keyword. -/
theorem no_keyword_default_risks_witness :
    detect_risks_rule_based "hello there friend" = default_risks :=
  no_keyword_default_risks "hello there friend" (by decide)

/-- Claim C4: for every text the rule-based risk list has at most 3 entries,
and the glossary has exactly 5 entries (so at most 5, and — the catalog
having at least 5 entries — at least 5, by the padding step). -/
theorem risk_and_glossary_bounds (text : String) :
    (detect_risks_rule_based text).length ≤ 3 ∧
    (extract_legal_terms text).length = 5 := by
  constructor
  · rw [detect_risks_eq]
    by_cases h : matched_risk_messages text = []
    · simp [h]
      decide
    · simp [h]
  · rw [extract_legal_terms_eq]
    have hsub : all_terms.take 5 ⊆
        matched_terms text ++
          (all_terms.take 5).filter (fun t => decide (t ∉ matched_terms text)) := by
      intro x hx
      by_cases hm : x ∈ matched_terms text
      · exact List.mem_append.mpr (Or.inl hm)
      · exact List.mem_append.mpr (Or.inr (List.mem_filter.mpr ⟨hx, by simpa using hm⟩))
    have hlen : 5 ≤ (matched_terms text ++
        (all_terms.take 5).filter (fun t => decide (t ∉ matched_terms text))).length := by
      have h5 : (all_terms.take 5).length = 5 := by decide
      have := (List.subperm_of_subset (by decide) hsub).length_le
      omega
    rw [List.length_take]
    omega

/-- Claim C9: the rule-based risk list is never empty: it has between 1 and 3
entries, and its length is exactly the number of matched risk categories
(capped at 3) when at least one matched, and 3 (the default list) when none
matched. -/
theorem detect_risks_length_spec (text : String) :
    1 ≤ (detect_risks_rule_based text).length ∧
    (detect_risks_rule_based text).length ≤ 3 ∧
    (detect_risks_rule_based text).length =
      (if matched_risk_count text = 0 then 3 else min (matched_risk_count text) 3) := by
  have hc : matched_risk_count text = (matched_risk_messages text).length := by
    unfold matched_risk_count matched_risk_messages
    rw [List.length_map, List.countP_eq_length_filter]
  rw [detect_risks_eq]
  by_cases h : matched_risk_messages text = []
  · have h0 : matched_risk_count text = 0 := by rw [hc, h]; rfl
    simp [h, h0]
    decide
  · have hne : matched_risk_count text ≠ 0 := by
      rw [hc]
      simpa using h
    have hlen0 : (matched_risk_messages text).length ≠ 0 := by
      simpa [List.length_eq_zero] using h
    have hpos : 1 ≤ (matched_risk_messages text).length :=
      Nat.one_le_iff_ne_zero.mpr hlen0
    simp only [if_neg h, hc, if_neg hlen0, List.length_take]
    omega

/-- The sample input text of the specification (§8). -/
def sample_agreement_text : String :=
  "This Agreement may be terminated by either party with 30 days notice. The indemnifying party shall be liable for all damages. Disputes shall be resolved by binding arbitration."

/-- Claim C5 counterexample: on the sample text the risk list does NOT
include the termination category message (the text contains "terminated",
not the catalog keyword "termination"; likewise "liable" is not
"liability"), so the claimed list membership fails. -/
theorem sample_text_lacks_termination_message :
    ¬ ("⚠️ **Cancellation Terms**: Document includes termination clauses. Check notice period and exit fees carefully."
        ∈ detect_risks_rule_based sample_agreement_text) := by
  decide

/-- Claim C5 (amended): on the sample text the classifier returns true, and
the rule-based risk list consists of exactly the binding, indemnification
and arbitration category messages, in catalog order, capped at 3 (the
termination and liability categories do not match, since the text contains
"terminated" and "liable" but not the keywords "termination" and
"liability"). -/
theorem sample_text_analysis :
    is_legal_document sample_agreement_text = true ∧
    detect_risks_rule_based sample_agreement_text =
      ["⚠️ **Legally Binding**: This is a binding contract. Breaking it could lead to legal consequences.",
       "⚠️ **Indemnification**: You may have to compensate the other party for certain losses.",
       "⚠️ **Arbitration Clause**: Disputes will be resolved through arbitration, not regular courts."] := by
  constructor
  · decide
  · decide

/-- Claim C6 counterexample: the document-type inference has no branch for
NDA hints — a text about a non-disclosure agreement gets the generic label,
not "non-disclosure agreement". -/
theorem nda_text_gets_generic_label :
    rule_based_doc_type
        "This non-disclosure agreement (NDA) is made between the undersigned parties."
      = "legal document" ∧
    rule_based_doc_type
        "This non-disclosure agreement (NDA) is made between the undersigned parties."
      ≠ "non-disclosure agreement" := by
  constructor
  · decide
  · decide

/-- Claim C6 (amended): document-type inference scans the lower-cased text
for hint words in fixed priority order — lease/rent wins first, then
employment, then service, otherwise the generic "legal document" label; the
first matching hint wins.  (There is no NDA branch.) -/
theorem doc_type_priority_order (text : String) :
    ((containsSubstr "lease" (lowerS text) || containsSubstr "rent" (lowerS text)) = true →
      rule_based_doc_type text = "lease agreement") ∧
    ((containsSubstr "lease" (lowerS text) || containsSubstr "rent" (lowerS text)) = false →
      containsSubstr "employment" (lowerS text) = true →
      rule_based_doc_type text = "employment contract") ∧
    ((containsSubstr "lease" (lowerS text) || containsSubstr "rent" (lowerS text)) = false →
      containsSubstr "employment" (lowerS text) = false →
      containsSubstr "service" (lowerS text) = true →
      rule_based_doc_type text = "service agreement") ∧
    ((containsSubstr "lease" (lowerS text) || containsSubstr "rent" (lowerS text)) = false →
      containsSubstr "employment" (lowerS text) = false →
      containsSubstr "service" (lowerS text) = false →
      rule_based_doc_type text = "legal document") := by
  refine ⟨fun h1 => ?_, fun h1 h2 => ?_, fun h1 h2 h3 => ?_, fun h1 h2 h3 => ?_⟩ <;>
    simp [rule_based_doc_type, h1]
  · simp [h2]
  · simp [h2, h3]
  · simp [h2, h3]

/-- Witness for the amended C6: one concrete text per branch of the
priority order. -/
theorem doc_type_priority_order_witness :
    rule_based_doc_type "monthly rent is due" = "lease agreement" ∧
    rule_based_doc_type "terms of employment" = "employment contract" ∧
    rule_based_doc_type "the service provided" = "service agreement" ∧
    rule_based_doc_type "hello world" = "legal document" :=
  ⟨(doc_type_priority_order "monthly rent is due").1 (by decide),
   (doc_type_priority_order "terms of employment").2.1 (by decide) (by decide),
   (doc_type_priority_order "the service provided").2.2.1 (by decide) (by decide) (by decide),
   (doc_type_priority_order "hello world").2.2.2 (by decide) (by decide) (by decide)⟩

/-- Claim C8: the `/simplify` handler answers 400 with an error body when the
trimmed input is empty or shorter than 20 characters, or when
`is_legal_document` rejects it — in both cases without consulting the
analysis step — and answers 500 with an error body when the analysis step
raises. -/
theorem simplify_status_contract
    (analysis : String → Except String (String × List String × List (String × String)))
    (raw : String) :
    (stripS raw = "" ∨ (stripS raw).length < 20 →
      simplify_legal_text analysis raw =
        (400, SimplifyBody.err "Text is too short. Please provide a valid document.")) ∧
    (¬(stripS raw = "" ∨ (stripS raw).length < 20) →
      is_legal_document (stripS raw) = false →
      simplify_legal_text analysis raw =
        (400, SimplifyBody.err "This doesn\x27t appear to be a legal document. Please upload contracts, agreements, or legal letters only.")) ∧
    (∀ e, ¬(stripS raw = "" ∨ (stripS raw).length < 20) →
      is_legal_document (stripS raw) = true →
      analysis (stripS raw) = Except.error e →
      simplify_legal_text analysis raw =
        (500, SimplifyBody.err ("Analysis failed: " ++ e))) ∧
    (∀ analysis2,
      (stripS raw = "" ∨ (stripS raw).length < 20 ∨ is_legal_document (stripS raw) = false) →
      simplify_legal_text analysis raw = simplify_legal_text analysis2 raw) := by
  refine ⟨fun h => ?_, fun h1 h2 => ?_, fun e h1 h2 h3 => ?_, fun analysis2 h => ?_⟩
  · simp [simplify_legal_text, h]
  · simp [simplify_legal_text, h1, h2]
  · simp [simplify_legal_text, h1, h2, h3]
  · by_cases hs : stripS raw = "" ∨ (stripS raw).length < 20
    · simp [simplify_legal_text, hs]
    · have hc : is_legal_document (stripS raw) = false := by
        rcases h with h | h | h
        · exact absurd (Or.inl h) hs
        · exact absurd (Or.inr h) hs
        · exact h
      simp [simplify_legal_text, hs, hc]

/-- Witness for C8: the three error paths and the analysis-independence of
the 400 path, on concrete inputs. -/
theorem simplify_status_contract_witness :
    simplify_legal_text (fun _ => Except.error "boom") "hi" =
      (400, SimplifyBody.err "Text is too short. Please provide a valid document.") ∧
    simplify_legal_text (fun _ => Except.error "boom")
        "hello how are you today my good friend" =
      (400, SimplifyBody.err "This doesn\x27t appear to be a legal document. Please upload contracts, agreements, or legal letters only.") ∧
    simplify_legal_text (fun _ => Except.error "boom")
        "This agreement is a binding contract between the parties." =
      (500, SimplifyBody.err ("Analysis failed: " ++ "boom")) ∧
    simplify_legal_text (fun _ => Except.error "boom") "hi" =
      simplify_legal_text (fun _ => Except.ok ("s", [], [])) "hi" :=
  ⟨(simplify_status_contract (fun _ => Except.error "boom") "hi").1 (by decide),
   (simplify_status_contract (fun _ => Except.error "boom")
      "hello how are you today my good friend").2.1 (by decide) (by decide),
   (simplify_status_contract (fun _ => Except.error "boom")
      "This agreement is a binding contract between the parties.").2.2.1
      "boom" (by decide) (by decide) rfl,
   (simplify_status_contract (fun _ => Except.error "boom") "hi").2.2.2
      (fun _ => Except.ok ("s", [], [])) (by decide)⟩

/-- Claim C10 counterexample: the glossary entries do not, in general, appear
in catalog insertion order — for the input "arbitration" the matched entry
for "Arbitration" (7th in the catalog) precedes the padded entries
"Indemnify", "Liability", "Breach", "Termination" (1st-4th), so the output
is not a subsequence of the catalog. -/
theorem extract_terms_not_catalog_ordered :
    (extract_legal_terms "arbitration").map Prod.fst =
      ["Arbitration", "Indemnify", "Liability", "Breach", "Termination"] ∧
    ¬ List.Sublist (extract_legal_terms "arbitration") all_terms := by
  constructor
  · decide
  · decide

/-- Claim C10 (amended): the glossary contains no two entries with the same
term, and consists of the text-matched entries (in catalog order) followed by
the padding entries drawn from the first 5 catalog entries not already
included (in catalog order), capped at 5 — matched entries always precede
padded ones, but a matched entry late in the catalog precedes padding drawn
from the start of the catalog. -/
theorem extract_terms_structure (text : String) :
    extract_legal_terms text =
      (matched_terms text ++
        (all_terms.take 5).filter (fun t => decide (t ∉ matched_terms text))).take 5 ∧
    ((extract_legal_terms text).map Prod.fst).Nodup := by
  refine ⟨extract_legal_terms_eq text, ?_⟩
  have hM : List.Sublist (matched_terms text) all_terms := List.filter_sublist _
  have hP : List.Sublist
      ((all_terms.take 5).filter (fun t => decide (t ∉ matched_terms text)))
      (all_terms.take 5) := List.filter_sublist _
  have hP' : List.Sublist
      ((all_terms.take 5).filter (fun t => decide (t ∉ matched_terms text)))
      all_terms := hP.trans (List.take_sublist _ _)
  have hAT : (all_terms.map Prod.fst).Nodup := by decide
  have hATn : all_terms.Nodup := by decide
  have hMP : (matched_terms text ++
      (all_terms.take 5).filter (fun t => decide (t ∉ matched_terms text))).Nodup := by
    rw [List.nodup_append]
    refine ⟨List.Nodup.sublist hM hATn, List.Nodup.sublist hP' hATn, ?_⟩
    intro x hxM hxP
    have hnot := (List.mem_filter.mp hxP).2
    simp only [decide_eq_true_eq] at hnot
    exact hnot hxM
  have hmem : ∀ x ∈ matched_terms text ++
      (all_terms.take 5).filter (fun t => decide (t ∉ matched_terms text)),
      x ∈ all_terms := by
    intro x hx
    rcases List.mem_append.mp hx with hx | hx
    · exact hM.subset hx
    · exact hP'.subset hx
  have hinj : ∀ x ∈ matched_terms text ++
      (all_terms.take 5).filter (fun t => decide (t ∉ matched_terms text)),
      ∀ y ∈ matched_terms text ++
        (all_terms.take 5).filter (fun t => decide (t ∉ matched_terms text)),
      x.1 = y.1 → x = y :=
    fun x hx y hy hxy =>
      List.inj_on_of_nodup_map hAT (hmem x hx) (hmem y hy) hxy
  have hnodup := List.Nodup.map_on hinj hMP
  rw [extract_legal_terms_eq]
  exact List.Nodup.sublist (List.Sublist.map _ (List.take_sublist _ _)) hnodup
